import Mathlib

/-!
Verification of the Empire party-game session server (`src/server.js`).

The server keeps a single mutable `gameState` object and exposes JSON
endpoints that read or mutate it.  We embed that state object and every
handler as pure Lean functions.  The two outbound network calls (the Groq
key-validation probe and the similarity classification call) are modelled
by passing the outcome of the network interaction as an explicit argument:
`ValidatorOutcome` for `validateApiKey` and `OracleOutcome` for
`checkSimilarity`.  The comparator-based shuffle in the `/api/start`
handler is modelled by passing the comparator (in the code, a fresh random
comparator per call) as an argument to an insertion sort.

JavaScript string primitives used by the handlers (`trim`,
`toLowerCase`) are embedded as `jsTrim` and `jsToLower`, acting on the
character list of the string (ASCII case mapping, the fragment relevant to
this program).
-/

namespace Empire

/-- Model of JS `String.prototype.toLowerCase` on a single character:
ASCII uppercase letters are shifted into lowercase, everything else kept. -/
def jsLowerChar (c : Char) : Char :=
  if 65 ≤ c.toNat ∧ c.toNat ≤ 90 then Char.ofNat (c.toNat + 32) else c

/-- Model of JS `String.prototype.toLowerCase`. -/
def jsToLower (s : String) : String := ⟨s.data.map jsLowerChar⟩

/-- Trimming on character lists: drop whitespace from both ends. -/
def trimList (l : List Char) : List Char :=
  ((l.dropWhile Char.isWhitespace).reverse.dropWhile Char.isWhitespace).reverse

/-- Model of JS `String.prototype.trim`. -/
def jsTrim (s : String) : String := ⟨trimList s.data⟩

/-- The word normalization performed by the `/api/submit` handler:
`(word || '').trim().toLowerCase()`. -/
def cleanWordOf (w : String) : String := jsToLower (jsTrim w)

/-- Game phase, `server.js` line 14: `'setup' | 'submission' | 'playing'`. -/
inductive Phase where
  | setup
  | submission
  | playing
deriving DecidableEq, Repr

/-- One entry of `gameState.submissions`: `{player, word}`. -/
structure Submission where
  player : String
  word : String
deriving DecidableEq, Repr

/-- The single mutable `gameState` object of `server.js`. -/
structure GameState where
  phase : Phase
  groqApiKey : Option String
  submissions : List Submission
  shuffledWords : List String
deriving DecidableEq, Repr

/-- `createFreshState()` from `server.js`. -/
def createFreshState : GameState :=
  { phase := Phase.setup
    groqApiKey := none
    submissions := []
    shuffledWords := [] }

/-- JS truthiness test for the optional `groqApiKey` field: `null` and the
empty string are falsy. -/
def jsFalsy : Option String → Bool
  | none => true
  | some s => s = ""

/-- An HTTP error response: status code and `error` message. -/
abbrev ApiError := Nat × String

/-- Outcome of the network interaction inside `validateApiKey`: the fetch
either throws (unreachable) or yields a response whose `ok` flag we record. -/
inductive ValidatorOutcome where
  | unreachable
  | reachable (ok : Bool)
deriving DecidableEq, Repr

/-- `validateApiKey(key)` from `server.js`: returns `resp.ok`, and `false`
when the fetch throws. -/
def validateApiKey (key : String) (v : ValidatorOutcome) : Bool :=
  match key, v with
  | _, ValidatorOutcome.unreachable => false
  | _, ValidatorOutcome.reachable ok => ok

/-- The parsed JSON body the similarity prompt asks the model for:
`{"is_similar": ..., "similar_to": ..., "reason": ...}`. -/
structure SimResponse where
  is_similar : Bool
  similar_to : Option String
  reason : String
deriving DecidableEq, Repr

/-- Outcome of the network interaction inside `checkSimilarity`: the fetch
throws, the response is not HTTP-ok, the reply text contains no JSON
object, parsing throws, or a JSON object is obtained. -/
inductive OracleOutcome where
  | unreachable
  | httpError
  | noJsonObject
  | parseError
  | reply (r : SimResponse)
deriving DecidableEq, Repr

/-- `checkSimilarity(newWord, existingWords, apiKey)` from `server.js`:
returns `null` without any network call when `existingWords` is empty or
`apiKey` is falsy, returns `null` on every failed network interaction, and
returns the parsed object otherwise. -/
def checkSimilarity (newWord : String) (existingWords : List String)
    (apiKey : Option String) (o : OracleOutcome) : Option SimResponse :=
  match newWord, existingWords.isEmpty || jsFalsy apiKey, o with
  | _, true, _ => none
  | _, false, OracleOutcome.reply r => some r
  | _, false, _ => none

/-- Truthiness of `sim && sim.is_similar` in the `/api/submit` handler. -/
def simIsSimilar : Option SimResponse → Bool
  | some r => r.is_similar
  | none => false

/-- `POST /api/set-key` handler. -/
def setKey (st : GameState) (key : String) (v : ValidatorOutcome) :
    GameState × Except ApiError Unit :=
  if key = "" then (st, Except.error (400, "Key required"))
  else if validateApiKey key v = false then (st, Except.error (401, "Invalid API key"))
  else ({ st with groqApiKey := some key, phase := Phase.submission }, Except.ok ())

/-- `POST /api/submit` handler.  Returns the new state together with the
response: `playerCount` on success, an error response otherwise. -/
def submitWord (st : GameState) (player word : String) (o : OracleOutcome) :
    GameState × Except ApiError Nat :=
  if st.phase ≠ Phase.submission then
    (st, Except.error (400, "Not accepting submissions right now."))
  else
    let cleanWord := cleanWordOf word
    let cleanName := jsTrim player
    if cleanName = "" ∨ cleanWord = "" then
      (st, Except.error (400, "Name and word are required."))
    else if st.submissions.any (fun s => jsToLower s.player == jsToLower cleanName) then
      (st, Except.error (400, cleanName ++ " has already submitted a word."))
    else if st.submissions.any (fun s => s.word == cleanWord) then
      (st, Except.error (400, "That word has already been submitted. Try another!"))
    else
      let existingWords := st.submissions.map (fun s => s.word)
      let sim := checkSimilarity cleanWord existingWords st.groqApiKey o
      if simIsSimilar sim then
        (st, Except.error (400, "Your word is too similar to a previously submitted word. Try another!"))
      else
        ({ st with submissions := st.submissions ++ [⟨cleanName, cleanWord⟩] },
         Except.ok (st.submissions.length + 1))

/-- Insertion of one element into a list already arranged by the comparator,
used to model `Array.prototype.sort` with the ad-hoc comparator of the
`/api/start` handler (`cmp a b` means the comparator puts `a` before `b`). -/
def insertCmp (cmp : Submission → Submission → Bool) (a : Submission) :
    List Submission → List Submission
  | [] => [a]
  | b :: bs => if cmp a b then a :: b :: bs else b :: insertCmp cmp a bs

/-- Comparison sort modelling `[...gameState.submissions].sort(...)`:
whatever the comparator decides, the result is a rearrangement. -/
def jsSort (cmp : Submission → Submission → Bool) :
    List Submission → List Submission
  | [] => []
  | a :: as => insertCmp cmp a (jsSort cmp as)

/-- `POST /api/start` handler.  The random comparator drawn by the code is
passed in as `cmp`. -/
def start (st : GameState) (cmp : Submission → Submission → Bool) :
    GameState × Except ApiError Unit :=
  if st.submissions.length < 2 then
    (st, Except.error (400, "Need at least 2 players."))
  else
    ({ st with phase := Phase.playing
               shuffledWords := (jsSort cmp st.submissions).map (fun s => s.word) },
     Except.ok ())

/-- `GET /api/words` handler. -/
def getWords (st : GameState) : GameState × Except ApiError (List String) :=
  if st.phase ≠ Phase.playing then (st, Except.error (400, "Game not started yet."))
  else (st, Except.ok st.shuffledWords)

/-- `GET /api/attribution` handler. -/
def getAttribution (st : GameState) : GameState × Except ApiError (List Submission) :=
  if st.phase ≠ Phase.playing then (st, Except.error (400, "Game not started yet."))
  else (st, Except.ok st.submissions)

/-- `POST /api/reset` handler (new round): fresh state, but the API key is
preserved and the phase is `submission`. -/
def reset (st : GameState) : GameState × Except ApiError Unit :=
  ({ createFreshState with groqApiKey := st.groqApiKey, phase := Phase.submission },
   Except.ok ())

/-- `POST /api/full-reset` handler: back to the fresh state. -/
def fullReset (st : GameState) : GameState × Except ApiError Unit :=
  (createFreshState, Except.ok ())

/-- Response body of `GET /api/state` (the display-only `playerUrl` field is
environment-derived and omitted). -/
structure StatusView where
  phase : Phase
  playerCount : Nat
  hasApiKey : Bool
deriving DecidableEq, Repr

/-- `GET /api/state` handler. -/
def getState (st : GameState) : GameState × StatusView :=
  (st, ⟨st.phase, st.submissions.length, st.groqApiKey.isSome⟩)

/-- One state transition of the session: some handler ran, with some
request payload and some outcome of its external calls. -/
inductive Step : GameState → GameState → Prop where
  | ofSetKey (st : GameState) (key : String) (v : ValidatorOutcome) :
      Step st (setKey st key v).1
  | ofSubmit (st : GameState) (p w : String) (o : OracleOutcome) :
      Step st (submitWord st p w o).1
  | ofStart (st : GameState) (cmp : Submission → Submission → Bool) :
      Step st (start st cmp).1
  | ofGetWords (st : GameState) : Step st (getWords st).1
  | ofGetAttribution (st : GameState) : Step st (getAttribution st).1
  | ofReset (st : GameState) : Step st (reset st).1
  | ofFullReset (st : GameState) : Step st (fullReset st).1
  | ofGetState (st : GameState) : Step st (getState st).1

/-- States reachable from the fresh session by any sequence of handler
invocations. -/
def Reachable (st : GameState) : Prop :=
  Relation.ReflTransGen Step createFreshState st

/-- Run a sequence of `/api/submit` calls; each triple is
(player, word, oracle outcome). -/
def runSubmits (st : GameState) : List (String × String × OracleOutcome) → GameState
  | [] => st
  | c :: rest => runSubmits (submitWord st c.1 c.2.1 c.2.2).1 rest

/-- The submissions invariant read with normalization applied at comparison
time: pairwise distinct case-folded player names and pairwise distinct
normalized (trimmed, lower-cased) words. -/
def NormDistinct (l : List Submission) : Prop :=
  l.Pairwise (fun a b =>
    jsToLower a.player ≠ jsToLower b.player ∧ cleanWordOf a.word ≠ cleanWordOf b.word)

/-- The submissions invariant as the code enforces it: pairwise distinct
case-folded player names and pairwise distinct stored words (exact match). -/
def ExactDistinct (l : List Submission) : Prop :=
  l.Pairwise (fun a b => jsToLower a.player ≠ jsToLower b.player ∧ a.word ≠ b.word)

/-- Every stored word is fixed by the normalization the handler applies
before storing (true of every state the code itself produces). -/
def WordsNormalized (l : List Submission) : Prop :=
  ∀ s ∈ l, cleanWordOf s.word = s.word

instance decNormDistinct (l : List Submission) : Decidable (NormDistinct l) := by
  unfold NormDistinct; infer_instance

instance decExactDistinct (l : List Submission) : Decidable (ExactDistinct l) := by
  unfold ExactDistinct; infer_instance

instance decWordsNormalized (l : List Submission) : Decidable (WordsNormalized l) := by
  unfold WordsNormalized; infer_instance

/-- Comparator that keeps the insertion order (models a run of random
draws that never swaps). -/
def cmpKeep : Submission → Submission → Bool := fun _ _ => true

/-- Comparator that reverses the insertion order (models a run of random
draws that always swaps). -/
def cmpSwap : Submission → Submission → Bool := fun _ _ => false

/-- Concrete trace: the host configures a valid key from the fresh state. -/
def traceS1 : GameState :=
  (setKey createFreshState "gsk-test" (ValidatorOutcome.reachable true)).1

/-- Concrete trace: first player submits. -/
def traceS2 : GameState := (submitWord traceS1 "Ann" "lion" OracleOutcome.unreachable).1

/-- Concrete trace: second player submits (oracle unreachable, fail open). -/
def traceS3 : GameState := (submitWord traceS2 "Bob" "tiger" OracleOutcome.unreachable).1

/-- Concrete trace: the round is started. -/
def traceS4 : GameState := (start traceS3 cmpKeep).1

/-- Concrete trace: the host re-validates the key while the round is
running; the handler moves the phase back to `submission` without clearing
`shuffledWords`. -/
def traceS5 : GameState :=
  (setKey traceS4 "gsk-test" (ValidatorOutcome.reachable true)).1

/-- A state whose submissions satisfy the pairwise-distinctness property but
store a word that is not in normalized form. -/
def seedState : GameState :=
  { phase := Phase.submission
    groqApiKey := some "gsk-test"
    submissions := [⟨"Ann", "Lion"⟩]
    shuffledWords := [] }

/-! ### Facts about the embedded JS string primitives -/

theorem toNat_ofNat_valid (n : Nat) (h : n < 0xd800) : (Char.ofNat n).toNat = n := by
  simp [Char.ofNat, Char.ofNatAux, Char.toNat, Nat.isValidChar, h, UInt32.toNat,
    BitVec.toNat_ofNatLt]

theorem char_eq_iff_toNat (c d : Char) : c = d ↔ c.toNat = d.toNat := by
  constructor
  · rintro rfl; rfl
  · intro h
    exact Char.ext (UInt32.ext h)

theorem jsLowerChar_idem (c : Char) : jsLowerChar (jsLowerChar c) = jsLowerChar c := by
  unfold jsLowerChar
  split
  · next h =>
    rw [toNat_ofNat_valid (c.toNat + 32) (by omega)]
    split
    · next h2 => omega
    · rfl
  · rfl

theorem isWhitespace_eq (c : Char) :
    c.isWhitespace = (c.toNat = 32 || c.toNat = 9 || c.toNat = 13 || c.toNat = 10) := by
  have hs : (' ').toNat = 32 := rfl
  have ht : ('\t').toNat = 9 := rfl
  have hc : ('\x0d').toNat = 13 := rfl
  have hn : ('\n').toNat = 10 := rfl
  simp only [Char.isWhitespace, char_eq_iff_toNat, hs, ht, hc, hn]

theorem jsLowerChar_isWhitespace (c : Char) :
    (jsLowerChar c).isWhitespace = c.isWhitespace := by
  unfold jsLowerChar
  split
  · next h =>
    rw [isWhitespace_eq, isWhitespace_eq, toNat_ofNat_valid (c.toNat + 32) (by omega)]
    have h1 : c.toNat + 32 ≠ 32 := by omega
    have h2 : c.toNat ≠ 32 := by omega
    simp [h1, h2]
    omega
  · rfl

theorem data_mk (l : List Char) : (String.mk l).data = l := rfl

theorem jsToLower_idem (s : String) : jsToLower (jsToLower s) = jsToLower s := by
  unfold jsToLower
  rw [data_mk, List.map_map]
  congr 1
  apply List.map_congr_left
  intro c _
  exact jsLowerChar_idem c

theorem head?_dropWhile {α : Type} (p : α → Bool) :
    ∀ (l : List α) (a : α), (l.dropWhile p).head? = some a → p a = false := by
  intro l
  induction l with
  | nil => intro a h; simp [List.dropWhile] at h
  | cons c cs ih =>
    intro a h
    rw [List.dropWhile_cons] at h
    by_cases hc : p c
    · rw [if_pos hc] at h
      exact ih a h
    · rw [if_neg hc] at h
      simp at h
      rw [← h]
      exact Bool.eq_false_iff.mpr hc

theorem dropWhile_of_head? {α : Type} (p : α → Bool) (l : List α)
    (h : ∀ a, l.head? = some a → p a = false) : l.dropWhile p = l := by
  cases l with
  | nil => rfl
  | cons c cs =>
    rw [List.dropWhile_cons, if_neg]
    simp [h c rfl]

theorem dropWhile_dropWhile {α : Type} (p : α → Bool) (l : List α) :
    (l.dropWhile p).dropWhile p = l.dropWhile p :=
  dropWhile_of_head? p _ (head?_dropWhile p l)

theorem trimList_prefix_dropWhile (l : List Char) :
    trimList l <+: l.dropWhile Char.isWhitespace := by
  unfold trimList
  rw [← List.reverse_reverse (l.dropWhile Char.isWhitespace), List.reverse_prefix,
    List.reverse_reverse]
  exact List.dropWhile_suffix _

theorem trimList_dropWhile (l : List Char) :
    (trimList l).dropWhile Char.isWhitespace = trimList l := by
  apply dropWhile_of_head?
  intro a ha
  obtain ⟨t, ht⟩ := trimList_prefix_dropWhile l
  apply head?_dropWhile Char.isWhitespace l
  rw [← ht]
  cases hM : trimList l with
  | nil => rw [hM] at ha; simp at ha
  | cons m ms =>
    rw [hM] at ha
    simp at ha
    simp [ha]

theorem trimList_idem (l : List Char) : trimList (trimList l) = trimList l := by
  have hrev : (trimList l).reverse =
      (l.dropWhile Char.isWhitespace).reverse.dropWhile Char.isWhitespace := by
    unfold trimList
    rw [List.reverse_reverse]
  calc trimList (trimList l)
      = (((trimList l).dropWhile Char.isWhitespace).reverse.dropWhile
          Char.isWhitespace).reverse := rfl
    _ = ((trimList l).reverse.dropWhile Char.isWhitespace).reverse := by
          rw [trimList_dropWhile]
    _ = (trimList l).reverse.reverse := by rw [hrev, dropWhile_dropWhile, ← hrev]
    _ = trimList l := List.reverse_reverse _

theorem trimList_map_lower (l : List Char) :
    trimList (l.map jsLowerChar) = (trimList l).map jsLowerChar := by
  have hws : (Char.isWhitespace ∘ jsLowerChar) = Char.isWhitespace := by
    funext c
    exact jsLowerChar_isWhitespace c
  unfold trimList
  rw [List.dropWhile_map, hws, ← List.map_reverse, List.dropWhile_map, hws,
    ← List.map_reverse]

theorem jsTrim_jsToLower (s : String) : jsTrim (jsToLower s) = jsToLower (jsTrim s) := by
  unfold jsTrim jsToLower
  rw [data_mk, data_mk, trimList_map_lower]

theorem jsTrim_idem (s : String) : jsTrim (jsTrim s) = jsTrim s := by
  unfold jsTrim
  rw [data_mk, trimList_idem]

theorem cleanWordOf_idem (w : String) : cleanWordOf (cleanWordOf w) = cleanWordOf w := by
  unfold cleanWordOf
  rw [jsTrim_jsToLower, jsTrim_idem, jsToLower_idem]

/-! ### Branch characterizations of the handlers -/

theorem submit_phase_gate (st : GameState) (p w : String) (o : OracleOutcome)
    (h : st.phase ≠ Phase.submission) :
    submitWord st p w o = (st, Except.error (400, "Not accepting submissions right now.")) := by
  unfold submitWord
  rw [if_pos h]

theorem submit_missing (st : GameState) (p w : String) (o : OracleOutcome)
    (h : st.phase = Phase.submission) (hm : jsTrim p = "" ∨ cleanWordOf w = "") :
    submitWord st p w o = (st, Except.error (400, "Name and word are required.")) := by
  unfold submitWord
  rw [if_neg (by simp [h])]
  dsimp only
  rw [if_pos hm]

theorem submit_dup_player (st : GameState) (p w : String) (o : OracleOutcome)
    (h : st.phase = Phase.submission) (hm : ¬(jsTrim p = "" ∨ cleanWordOf w = ""))
    (hd : st.submissions.any (fun s => jsToLower s.player == jsToLower (jsTrim p)) = true) :
    submitWord st p w o =
      (st, Except.error (400, jsTrim p ++ " has already submitted a word.")) := by
  unfold submitWord
  rw [if_neg (by simp [h])]
  dsimp only
  rw [if_neg hm, if_pos hd]

theorem submit_dup_word (st : GameState) (p w : String) (o : OracleOutcome)
    (h : st.phase = Phase.submission) (hm : ¬(jsTrim p = "" ∨ cleanWordOf w = ""))
    (hd : st.submissions.any (fun s => jsToLower s.player == jsToLower (jsTrim p)) = false)
    (hw : st.submissions.any (fun s => s.word == cleanWordOf w) = true) :
    submitWord st p w o =
      (st, Except.error (400, "That word has already been submitted. Try another!")) := by
  unfold submitWord
  rw [if_neg (by simp [h])]
  dsimp only
  rw [if_neg hm, if_neg (by simp [hd]), if_pos hw]

theorem submit_checked (st : GameState) (p w : String) (o : OracleOutcome)
    (h : st.phase = Phase.submission) (hm : ¬(jsTrim p = "" ∨ cleanWordOf w = ""))
    (hd : st.submissions.any (fun s => jsToLower s.player == jsToLower (jsTrim p)) = false)
    (hw : st.submissions.any (fun s => s.word == cleanWordOf w) = false) :
    submitWord st p w o =
      if simIsSimilar (checkSimilarity (cleanWordOf w)
          (st.submissions.map (fun s => s.word)) st.groqApiKey o) then
        (st, Except.error (400,
          "Your word is too similar to a previously submitted word. Try another!"))
      else
        ({ st with submissions := st.submissions ++ [⟨jsTrim p, cleanWordOf w⟩] },
         Except.ok (st.submissions.length + 1)) := by
  unfold submitWord
  rw [if_neg (by simp [h])]
  dsimp only
  rw [if_neg hm, if_neg (by simp [hd]), if_neg (by simp [hw])]

theorem submit_state_id_or_append (st : GameState) (p w : String) (o : OracleOutcome) :
    (submitWord st p w o).1 = st ∨
    (submitWord st p w o).1 =
      { st with submissions := st.submissions ++ [⟨jsTrim p, cleanWordOf w⟩] } := by
  unfold submitWord
  dsimp only
  repeat' split
  all_goals first | exact Or.inl rfl | exact Or.inr rfl

theorem setKey_state_id_or (st : GameState) (key : String) (v : ValidatorOutcome) :
    (setKey st key v).1 = st ∨
    (setKey st key v).1 = { st with groqApiKey := some key, phase := Phase.submission } := by
  unfold setKey
  repeat' split
  all_goals first | exact Or.inl rfl | exact Or.inr rfl

theorem start_lt (st : GameState) (cmp : Submission → Submission → Bool)
    (h : st.submissions.length < 2) :
    start st cmp = (st, Except.error (400, "Need at least 2 players.")) := by
  unfold start
  rw [if_pos h]

theorem start_ge (st : GameState) (cmp : Submission → Submission → Bool)
    (h : ¬st.submissions.length < 2) :
    start st cmp =
      ({ st with phase := Phase.playing
                 shuffledWords := (jsSort cmp st.submissions).map (fun s => s.word) },
       Except.ok ()) := by
  unfold start
  rw [if_neg h]

theorem getWords_fst (st : GameState) : (getWords st).1 = st := by
  unfold getWords
  split <;> rfl

theorem getAttribution_fst (st : GameState) : (getAttribution st).1 = st := by
  unfold getAttribution
  split <;> rfl

/-! ### The comparator sort produces a permutation -/

theorem insertCmp_perm (cmp : Submission → Submission → Bool) (a : Submission) :
    ∀ l, (insertCmp cmp a l).Perm (a :: l)
  | [] => List.Perm.refl _
  | b :: bs => by
    unfold insertCmp
    split
    · exact List.Perm.refl _
    · exact ((insertCmp_perm cmp a bs).cons b).trans (List.Perm.swap a b bs)

theorem jsSort_perm (cmp : Submission → Submission → Bool) :
    ∀ l, (jsSort cmp l).Perm l
  | [] => List.Perm.refl _
  | a :: as => (insertCmp_perm cmp a (jsSort cmp as)).trans ((jsSort_perm cmp as).cons a)

/-! ### Reachability of the concrete trace -/

theorem reachable_traceS1 : Reachable traceS1 :=
  Relation.ReflTransGen.single
    (by unfold traceS1
        exact Step.ofSetKey createFreshState "gsk-test" (ValidatorOutcome.reachable true))

theorem reachable_traceS2 : Reachable traceS2 :=
  Relation.ReflTransGen.tail reachable_traceS1
    (by unfold traceS2; exact Step.ofSubmit traceS1 "Ann" "lion" OracleOutcome.unreachable)

theorem reachable_traceS3 : Reachable traceS3 :=
  Relation.ReflTransGen.tail reachable_traceS2
    (by unfold traceS3; exact Step.ofSubmit traceS2 "Bob" "tiger" OracleOutcome.unreachable)

theorem reachable_traceS4 : Reachable traceS4 :=
  Relation.ReflTransGen.tail reachable_traceS3
    (by unfold traceS4; exact Step.ofStart traceS3 cmpKeep)

theorem reachable_traceS5 : Reachable traceS5 :=
  Relation.ReflTransGen.tail reachable_traceS4
    (by unfold traceS5
        exact Step.ofSetKey traceS4 "gsk-test" (ValidatorOutcome.reachable true))

/-! ### The shuffledWords / phase invariant -/

theorem step_preserves_shuffle_inv {a b : GameState} (h : Step a b)
    (ha : a.shuffledWords ≠ [] → a.phase ≠ Phase.setup) :
    b.shuffledWords ≠ [] → b.phase ≠ Phase.setup := by
  cases h with
  | ofSetKey key v =>
    rcases setKey_state_id_or a key v with h1 | h1 <;> rw [h1]
    · exact ha
    · intro _ hc
      exact Phase.noConfusion hc
  | ofSubmit p w o =>
    rcases submit_state_id_or_append a p w o with h1 | h1 <;> rw [h1]
    · exact ha
    · exact ha
  | ofStart cmp =>
    by_cases hl : a.submissions.length < 2
    · rw [start_lt a cmp hl]; exact ha
    · rw [start_ge a cmp hl]
      intro _ hc
      exact Phase.noConfusion hc
  | ofGetWords => rw [getWords_fst]; exact ha
  | ofGetAttribution => rw [getAttribution_fst]; exact ha
  | ofReset => intro hne; exact absurd rfl hne
  | ofFullReset => intro hne; exact absurd rfl hne
  | ofGetState => exact ha

/-! ### Preservation of the submissions distinctness invariant -/

theorem submit_preserves_distinct (st : GameState) (p w : String) (o : OracleOutcome)
    (h1 : ExactDistinct st.submissions) (h2 : WordsNormalized st.submissions) :
    ExactDistinct (submitWord st p w o).1.submissions ∧
    WordsNormalized (submitWord st p w o).1.submissions := by
  by_cases hp : st.phase = Phase.submission
  case neg => rw [submit_phase_gate st p w o hp]; exact ⟨h1, h2⟩
  by_cases hm : jsTrim p = "" ∨ cleanWordOf w = ""
  case pos => rw [submit_missing st p w o hp hm]; exact ⟨h1, h2⟩
  cases hd : st.submissions.any (fun s => jsToLower s.player == jsToLower (jsTrim p)) with
  | true => rw [submit_dup_player st p w o hp hm hd]; exact ⟨h1, h2⟩
  | false =>
  cases hw : st.submissions.any (fun s => s.word == cleanWordOf w) with
  | true => rw [submit_dup_word st p w o hp hm hd hw]; exact ⟨h1, h2⟩
  | false =>
  rw [submit_checked st p w o hp hm hd hw]
  split
  · exact ⟨h1, h2⟩
  · simp only [List.any_eq_false, beq_iff_eq] at hd hw
    constructor
    · unfold ExactDistinct at h1 ⊢
      rw [List.pairwise_append]
      refine ⟨h1, List.pairwise_singleton _ _, ?_⟩
      intro a hath x hx
      rw [List.mem_singleton] at hx
      subst hx
      exact ⟨hd a hath, hw a hath⟩
    · intro s hs
      rcases List.mem_append.mp hs with hmem | hmem
      · exact h2 s hmem
      · rw [List.mem_singleton] at hmem
        subst hmem
        exact cleanWordOf_idem w

theorem runSubmits_preserves (ins : List (String × String × OracleOutcome)) :
    ∀ st : GameState, ExactDistinct st.submissions → WordsNormalized st.submissions →
      ExactDistinct (runSubmits st ins).submissions ∧
      WordsNormalized (runSubmits st ins).submissions := by
  induction ins with
  | nil => intro st h1 h2; exact ⟨h1, h2⟩
  | cons c rest ih =>
    intro st h1 h2
    have hstep := submit_preserves_distinct st c.1 c.2.1 c.2.2 h1 h2
    simp only [runSubmits]
    exact ih _ hstep.1 hstep.2

theorem normDistinct_of_exact (l : List Submission)
    (h1 : ExactDistinct l) (h2 : WordsNormalized l) : NormDistinct l := by
  unfold NormDistinct
  unfold ExactDistinct at h1
  exact h1.imp_of_mem (fun ha hb r => ⟨r.1, by rw [h2 _ ha, h2 _ hb]; exact r.2⟩)

theorem reachable_shuffle_inv (st : GameState) (h : Reachable st) :
    st.shuffledWords ≠ [] → st.phase ≠ Phase.setup := by
  unfold Reachable at h
  induction h with
  | refl => intro hne; exact absurd rfl hne
  | tail hab hbc ih => exact step_preserves_shuffle_inv hbc ih

/-! ### Claim theorems -/

/-- Claim C1, counterexample: the claim quantifies over every starting state
whose submissions list satisfies the distinctness property.  The state
`seedState` stores the single word "Lion", which is not in normalized form;
its submissions satisfy the property, the phase is Submission, yet a
`SubmitWord` of "lion" is accepted (the handler compares stored words
exactly), producing two entries with equal normalized word. -/
theorem submissions_distinct_counterexample :
    seedState.phase = Phase.submission ∧
    NormDistinct seedState.submissions ∧
    ¬NormDistinct
      (runSubmits seedState [("Bob", "lion", OracleOutcome.unreachable)]).submissions :=
  ⟨rfl, by decide, by decide⟩

/-- Claim C1, amended: for every sequence of SubmitWord operations performed
while phase = Submission, starting from any state whose submissions list
satisfies the property AND stores every word in normalized (trimmed,
lower-cased) form — in particular the fresh session — the resulting
submissions list again stores only normalized words, contains no two
entries with equal case-folded player name, no two entries with equal
stored word, and hence no two entries with equal normalized word. -/
theorem submissions_distinct_amended (st : GameState)
    (ins : List (String × String × OracleOutcome))
    (hphase : st.phase = Phase.submission)
    (h1 : ExactDistinct st.submissions) (h2 : WordsNormalized st.submissions) :
    ExactDistinct (runSubmits st ins).submissions ∧
    WordsNormalized (runSubmits st ins).submissions ∧
    NormDistinct (runSubmits st ins).submissions := by
  obtain ⟨e, n⟩ := runSubmits_preserves ins st h1 h2
  exact ⟨e, n, normDistinct_of_exact _ e n⟩

/-- Witness for the amended claim C1, at the concrete state reached after
configuring a valid key, with one submission performed. -/
theorem submissions_distinct_amended_witness :
    ExactDistinct (runSubmits traceS1 [("Ann", "lion", OracleOutcome.unreachable)]).submissions ∧
    WordsNormalized (runSubmits traceS1 [("Ann", "lion", OracleOutcome.unreachable)]).submissions ∧
    NormDistinct (runSubmits traceS1 [("Ann", "lion", OracleOutcome.unreachable)]).submissions :=
  submissions_distinct_amended traceS1 [("Ann", "lion", OracleOutcome.unreachable)]
    (by decide) (by decide) (by decide)

/-- Claim C3, counterexample: the state `traceS5` is reachable from the
fresh session (valid set-key, two submissions, start, then another valid
set-key), its `shuffledWords` is non-empty, yet its phase is Submission,
not Playing: the set-key handler moves the phase back to `submission`
without clearing `shuffledWords`. -/
theorem shuffled_nonempty_playing_counterexample :
    Reachable traceS5 ∧ traceS5.shuffledWords ≠ [] ∧ traceS5.phase ≠ Phase.playing :=
  ⟨reachable_traceS5, by decide, by decide⟩

/-- Claim C3, amended: in every state reachable from the fresh session by
any sequence of the operations, a non-empty `shuffledWords` implies the
phase is Submission or Playing (equivalently: never Setup).  The stronger
reading `phase = Playing` fails, per the counterexample. -/
theorem shuffled_nonempty_phase_amended (st : GameState) (h : Reachable st)
    (hne : st.shuffledWords ≠ []) :
    st.phase = Phase.submission ∨ st.phase = Phase.playing := by
  have hns := reachable_shuffle_inv st h hne
  cases hp : st.phase with
  | setup => exact absurd hp hns
  | submission => exact Or.inl rfl
  | playing => exact Or.inr rfl

/-- Witness for the amended claim C3, at the reachable state `traceS5`. -/
theorem shuffled_nonempty_phase_amended_witness :
    traceS5.phase = Phase.submission ∨ traceS5.phase = Phase.playing :=
  shuffled_nonempty_phase_amended traceS5 reachable_traceS5 (by decide)

/-- Claim C4, counterexample: after the successful StartRound that produced
the reachable state `traceS4`, a second StartRound call (before any reset)
does not fail — the `/api/start` handler has no phase gate, only the
two-submission check, which still passes — and it recomputes
`shuffledWords` (here: to a different permutation). -/
theorem start_reentry_counterexample :
    Reachable traceS4 ∧
    (start traceS3 cmpKeep).2 = Except.ok () ∧
    traceS4 = (start traceS3 cmpKeep).1 ∧
    (start traceS4 cmpSwap).2 = Except.ok () ∧
    (start traceS4 cmpSwap).1.shuffledWords ≠ traceS4.shuffledWords :=
  ⟨reachable_traceS4, rfl, rfl, rfl, by decide⟩

/-- Claim C4, amended: after a successful StartRound, a further StartRound
call made before any reset also succeeds (the handler checks only
`submissions.length >= 2`, which the first call preserved) and recomputes
`shuffledWords` from the current submissions with the fresh comparator. -/
theorem start_reentry_amended (st : GameState)
    (cmp cmp2 : Submission → Submission → Bool)
    (h : (start st cmp).2 = Except.ok ()) :
    (start (start st cmp).1 cmp2).2 = Except.ok () ∧
    (start (start st cmp).1 cmp2).1.shuffledWords =
      (jsSort cmp2 st.submissions).map (fun s => s.word) := by
  by_cases hl : st.submissions.length < 2
  · rw [start_lt st cmp hl] at h
    exact Except.noConfusion h
  · rw [start_ge st cmp hl]
    dsimp only
    unfold start
    split
    · next hcond => exact absurd hcond hl
    · exact ⟨rfl, rfl⟩

/-- Witness for the amended claim C4, at the concrete two-submission state. -/
theorem start_reentry_amended_witness :
    (start (start traceS3 cmpKeep).1 cmpSwap).2 = Except.ok () ∧
    (start (start traceS3 cmpKeep).1 cmpSwap).1.shuffledWords =
      (jsSort cmpSwap traceS3.submissions).map (fun s => s.word) :=
  start_reentry_amended traceS3 cmpKeep cmpSwap rfl

theorem simIsSimilar_true_iff (cw : String) (ex : List String) (k : Option String)
    (o : OracleOutcome) :
    simIsSimilar (checkSimilarity cw ex k o) = true ↔
      (ex.isEmpty || jsFalsy k) = false ∧
      ∃ r : SimResponse, o = OracleOutcome.reply r ∧ r.is_similar = true := by
  unfold checkSimilarity simIsSimilar
  cases hg : ex.isEmpty || jsFalsy k <;> cases o <;> simp

theorem checkSimilarity_none (cw : String) (ex : List String) (k : Option String)
    (o : OracleOutcome) (hg : (ex.isEmpty || jsFalsy k) = true) :
    checkSimilarity cw ex k o = none := by
  unfold checkSimilarity
  rw [hg]

/-- Claim C2: for every state, StartRound succeeds if and only if
`submissions` has length at least 2; whenever that holds, the resulting
phase is Playing and the resulting `shuffledWords` is a permutation of the
words of the submissions list at the time of the call. -/
theorem startRound_spec (st : GameState) (cmp : Submission → Submission → Bool) :
    ((start st cmp).2 = Except.ok () ↔ 2 ≤ st.submissions.length) ∧
    (2 ≤ st.submissions.length →
      (start st cmp).1.phase = Phase.playing ∧
      ((start st cmp).1.shuffledWords).Perm (st.submissions.map (fun s => s.word))) := by
  by_cases hl : st.submissions.length < 2
  · rw [start_lt st cmp hl]
    have hnot : ¬2 ≤ st.submissions.length := by omega
    exact ⟨⟨fun hc => Except.noConfusion hc, fun hge => absurd hge hnot⟩,
      fun hge => absurd hge hnot⟩
  · rw [start_ge st cmp hl]
    exact ⟨⟨fun _ => by omega, fun _ => rfl⟩,
      fun _ => ⟨rfl, (jsSort_perm cmp st.submissions).map (fun s => s.word)⟩⟩

/-- Witness for claim C2, at the concrete two-submission state. -/
theorem startRound_spec_witness :
    ((start traceS3 cmpKeep).2 = Except.ok () ↔ 2 ≤ traceS3.submissions.length) ∧
    ((start traceS3 cmpKeep).1.phase = Phase.playing ∧
      ((start traceS3 cmpKeep).1.shuffledWords).Perm
        (traceS3.submissions.map (fun s => s.word))) :=
  ⟨(startRound_spec traceS3 cmpKeep).1, (startRound_spec traceS3 cmpKeep).2 (by decide)⟩

/-- Claim C5: SubmitWord fails with the phase-mismatch error outside phase
Submission; otherwise it trims and case-folds the word, trims the player
name, fails with the missing-field error if either is then empty, fails
with the duplicate-player error if an existing submission has the same
case-folded player name, fails with the duplicate-word error if an existing
submission has the exact same normalized word, and on acceptance (when the
similarity check does not report a match) appends the normalized pair to
`submissions` and returns the updated submission count. -/
theorem submitWord_spec (st : GameState) (player word : String) (o : OracleOutcome) :
    (st.phase ≠ Phase.submission →
      submitWord st player word o =
        (st, Except.error (400, "Not accepting submissions right now."))) ∧
    (st.phase = Phase.submission → jsTrim player = "" ∨ cleanWordOf word = "" →
      submitWord st player word o =
        (st, Except.error (400, "Name and word are required."))) ∧
    (st.phase = Phase.submission → jsTrim player ≠ "" → cleanWordOf word ≠ "" →
      (∃ s ∈ st.submissions, jsToLower s.player = jsToLower (jsTrim player)) →
      submitWord st player word o =
        (st, Except.error (400, jsTrim player ++ " has already submitted a word."))) ∧
    (st.phase = Phase.submission → jsTrim player ≠ "" → cleanWordOf word ≠ "" →
      (∀ s ∈ st.submissions, jsToLower s.player ≠ jsToLower (jsTrim player)) →
      (∃ s ∈ st.submissions, s.word = cleanWordOf word) →
      submitWord st player word o =
        (st, Except.error (400, "That word has already been submitted. Try another!"))) ∧
    (st.phase = Phase.submission → jsTrim player ≠ "" → cleanWordOf word ≠ "" →
      (∀ s ∈ st.submissions, jsToLower s.player ≠ jsToLower (jsTrim player)) →
      (∀ s ∈ st.submissions, s.word ≠ cleanWordOf word) →
      simIsSimilar (checkSimilarity (cleanWordOf word)
        (st.submissions.map (fun s => s.word)) st.groqApiKey o) = false →
      submitWord st player word o =
        ({ st with submissions :=
            st.submissions ++ [⟨jsTrim player, cleanWordOf word⟩] },
         Except.ok (st.submissions.length + 1))) := by
  refine ⟨fun h => submit_phase_gate st player word o h,
    fun h hm => submit_missing st player word o h hm,
    fun h h2 h3 hex => submit_dup_player st player word o h (by simp [h2, h3]) ?_,
    fun h h2 h3 hall hex => submit_dup_word st player word o h (by simp [h2, h3]) ?_ ?_,
    fun h h2 h3 hallp hallw hsim => ?_⟩
  · simp only [List.any_eq_true, beq_iff_eq]
    exact hex
  · simp only [List.any_eq_false, beq_iff_eq]
    exact hall
  · simp only [List.any_eq_true, beq_iff_eq]
    exact hex
  · rw [submit_checked st player word o h (by simp [h2, h3])
      (by simp only [List.any_eq_false, beq_iff_eq]; exact hallp)
      (by simp only [List.any_eq_false, beq_iff_eq]; exact hallw)]
    rw [if_neg (by rw [hsim]; exact Bool.false_ne_true)]

/-- Witness for claim C5: a concrete accepted submission (note the word is
stored trimmed and lower-cased). -/
theorem submitWord_spec_witness :
    submitWord traceS1 "Ann" " LION " OracleOutcome.unreachable =
      ({ traceS1 with submissions :=
          traceS1.submissions ++ [⟨jsTrim "Ann", cleanWordOf " LION "⟩] },
       Except.ok (traceS1.submissions.length + 1)) :=
  (submitWord_spec traceS1 "Ann" " LION " OracleOutcome.unreachable).2.2.2.2
    (by decide) (by decide) (by decide) (by decide) (by decide) (by decide)

/-- Claim C6: for every SubmitWord call that passes the phase,
missing-field and duplicate checks, any oracle outcome other than a
well-formed reply reporting a similarity match — unreachability, an HTTP
error, a reply with no JSON object, a parse failure, or a well-formed
non-match — results in the word being accepted (fail open); the word is
rejected with the similar-word error only when the oracle returned a
well-formed reply reporting a match. -/
theorem similarity_fail_open (st : GameState) (p w : String) (o : OracleOutcome)
    (h1 : st.phase = Phase.submission) (h2 : jsTrim p ≠ "") (h3 : cleanWordOf w ≠ "")
    (h4 : ∀ s ∈ st.submissions, jsToLower s.player ≠ jsToLower (jsTrim p))
    (h5 : ∀ s ∈ st.submissions, s.word ≠ cleanWordOf w) :
    ((∀ r : SimResponse, r.is_similar = true → o ≠ OracleOutcome.reply r) →
      submitWord st p w o =
        ({ st with submissions := st.submissions ++ [⟨jsTrim p, cleanWordOf w⟩] },
         Except.ok (st.submissions.length + 1))) ∧
    ((submitWord st p w o).2 =
        Except.error (400,
          "Your word is too similar to a previously submitted word. Try another!") →
      ∃ r : SimResponse, o = OracleOutcome.reply r ∧ r.is_similar = true) := by
  have hd : st.submissions.any (fun s => jsToLower s.player == jsToLower (jsTrim p)) = false := by
    simp only [List.any_eq_false, beq_iff_eq]
    exact h4
  have hw : st.submissions.any (fun s => s.word == cleanWordOf w) = false := by
    simp only [List.any_eq_false, beq_iff_eq]
    exact h5
  have hch := submit_checked st p w o h1 (by simp [h2, h3]) hd hw
  constructor
  · intro hno
    rw [hch, if_neg]
    intro hs
    obtain ⟨-, r, rfl, hr⟩ := (simIsSimilar_true_iff _ _ _ _).mp hs
    exact hno r hr rfl
  · intro herr
    by_cases hs : simIsSimilar (checkSimilarity (cleanWordOf w)
        (st.submissions.map (fun s => s.word)) st.groqApiKey o) = true
    · obtain ⟨-, r, ho, hr⟩ := (simIsSimilar_true_iff _ _ _ _).mp hs
      exact ⟨r, ho, hr⟩
    · rw [hch, if_neg hs] at herr
      exact Except.noConfusion herr

/-- Witness for claim C6: with one existing submission and a configured
key, a submission during which the oracle request fails with an HTTP error
is accepted. -/
theorem similarity_fail_open_witness :
    submitWord traceS2 "Bob" "tiger" OracleOutcome.httpError =
      ({ traceS2 with submissions :=
          traceS2.submissions ++ [⟨jsTrim "Bob", cleanWordOf "tiger"⟩] },
       Except.ok (traceS2.submissions.length + 1)) :=
  (similarity_fail_open traceS2 "Bob" "tiger" OracleOutcome.httpError
      (by decide) (by decide) (by decide) (by decide) (by decide)).1
    (fun r _ hc => OracleOutcome.noConfusion hc)

/-- Claim C7: whenever the secret validator reports failure — in
particular whenever it is unreachable, which `validateApiKey` maps to
`false` — the set-key handler leaves the entire state unchanged, never
succeeds, and (for any candidate that reaches validation, i.e. any
non-empty candidate) fails with the invalid-credential error. -/
theorem setKey_fail_closed (st : GameState) (key : String) (v : ValidatorOutcome)
    (h : validateApiKey key v = false) :
    (setKey st key v).1 = st ∧
    (∀ u : Unit, (setKey st key v).2 ≠ Except.ok u) ∧
    (key ≠ "" → setKey st key v = (st, Except.error (401, "Invalid API key"))) ∧
    validateApiKey key ValidatorOutcome.unreachable = false := by
  unfold setKey
  by_cases hk : key = ""
  · rw [if_pos hk]
    exact ⟨rfl, fun u hc => Except.noConfusion hc, fun hne => absurd hk hne, rfl⟩
  · rw [if_neg hk, if_pos h]
    exact ⟨rfl, fun u hc => Except.noConfusion hc, fun _ => rfl, rfl⟩

/-- Witness for claim C7: from the fresh session, with the validator
unreachable, the state (in particular phase Setup) is unchanged. -/
theorem setKey_fail_closed_witness :
    (setKey createFreshState "gsk-test" ValidatorOutcome.unreachable).1 = createFreshState ∧
    (∀ u : Unit,
      (setKey createFreshState "gsk-test" ValidatorOutcome.unreachable).2 ≠ Except.ok u) ∧
    ("gsk-test" ≠ "" →
      setKey createFreshState "gsk-test" ValidatorOutcome.unreachable =
        (createFreshState, Except.error (401, "Invalid API key"))) ∧
    validateApiKey "gsk-test" ValidatorOutcome.unreachable = false :=
  setKey_fail_closed createFreshState "gsk-test" ValidatorOutcome.unreachable rfl

/-- Claim C8: NewRound always succeeds and yields phase Submission, empty
submissions, empty shuffledWords, and an unchanged secret; FullReset always
succeeds and yields the fresh state: phase Setup, empty submissions, empty
shuffledWords, and the secret cleared. -/
theorem reset_fullReset_spec (st : GameState) :
    (reset st).2 = Except.ok () ∧
    (reset st).1.phase = Phase.submission ∧
    (reset st).1.submissions = [] ∧
    (reset st).1.shuffledWords = [] ∧
    (reset st).1.groqApiKey = st.groqApiKey ∧
    (fullReset st).2 = Except.ok () ∧
    (fullReset st).1 = createFreshState ∧
    createFreshState.phase = Phase.setup ∧
    createFreshState.submissions = [] ∧
    createFreshState.shuffledWords = [] ∧
    createFreshState.groqApiKey = none :=
  ⟨rfl, rfl, rfl, rfl, rfl, rfl, rfl, rfl, rfl, rfl, rfl⟩

/-- Claim C9: GetWords and GetAttribution fail with the not-started error
whenever the phase is not Playing, succeed whenever it is Playing —
returning `shuffledWords` and the full submissions list respectively — and
neither call mutates the state. -/
theorem views_spec (st : GameState) :
    (st.phase ≠ Phase.playing →
      getWords st = (st, Except.error (400, "Game not started yet.")) ∧
      getAttribution st = (st, Except.error (400, "Game not started yet."))) ∧
    (st.phase = Phase.playing →
      getWords st = (st, Except.ok st.shuffledWords) ∧
      getAttribution st = (st, Except.ok st.submissions)) ∧
    (getWords st).1 = st ∧ (getAttribution st).1 = st := by
  refine ⟨?_, ?_, getWords_fst st, getAttribution_fst st⟩
  · intro h
    unfold getWords getAttribution
    rw [if_pos h, if_pos h]
    exact ⟨rfl, rfl⟩
  · intro h
    unfold getWords getAttribution
    rw [if_neg (by simp [h]), if_neg (by simp [h])]
    exact ⟨rfl, rfl⟩

/-- Witness for claim C9: the fresh session rejects both reads; the
concrete playing state serves both. -/
theorem views_spec_witness :
    (getWords createFreshState =
        (createFreshState, Except.error (400, "Game not started yet.")) ∧
      getAttribution createFreshState =
        (createFreshState, Except.error (400, "Game not started yet."))) ∧
    (getWords traceS4 = (traceS4, Except.ok traceS4.shuffledWords) ∧
      getAttribution traceS4 = (traceS4, Except.ok traceS4.submissions)) :=
  ⟨(views_spec createFreshState).1 (by decide), (views_spec traceS4).2.1 (by decide)⟩

/-- Claim C10: when the submissions list is empty or no secret is set,
`checkSimilarity` returns `null` without consulting the oracle — the
submit result is then independent of the oracle outcome — and a submission
that passes the phase, missing-field and duplicate checks is accepted,
never rejected as similar.  In particular the first submission of a round
is never rejected as similar, and with a null secret no submission is ever
similarity-checked. -/
theorem oracle_skip_spec (st : GameState) (p w : String) (o o2 : OracleOutcome)
    (h : st.submissions = [] ∨ st.groqApiKey = none) :
    checkSimilarity (cleanWordOf w) (st.submissions.map (fun s => s.word))
      st.groqApiKey o = none ∧
    submitWord st p w o = submitWord st p w o2 ∧
    (st.phase = Phase.submission → ¬(jsTrim p = "" ∨ cleanWordOf w = "") →
      st.submissions.any (fun s => jsToLower s.player == jsToLower (jsTrim p)) = false →
      st.submissions.any (fun s => s.word == cleanWordOf w) = false →
      submitWord st p w o =
        ({ st with submissions := st.submissions ++ [⟨jsTrim p, cleanWordOf w⟩] },
         Except.ok (st.submissions.length + 1))) := by
  have hg : ((st.submissions.map (fun s => s.word)).isEmpty || jsFalsy st.groqApiKey) = true := by
    rcases h with h | h <;> simp [h, jsFalsy]
  have hnone : ∀ oo : OracleOutcome,
      checkSimilarity (cleanWordOf w) (st.submissions.map (fun s => s.word))
        st.groqApiKey oo = none :=
    fun oo => checkSimilarity_none _ _ _ oo hg
  refine ⟨hnone o, ?_, ?_⟩
  · by_cases hp : st.phase = Phase.submission
    case neg => rw [submit_phase_gate st p w o hp, submit_phase_gate st p w o2 hp]
    by_cases hm : jsTrim p = "" ∨ cleanWordOf w = ""
    case pos => rw [submit_missing st p w o hp hm, submit_missing st p w o2 hp hm]
    cases hd : st.submissions.any (fun s => jsToLower s.player == jsToLower (jsTrim p)) with
    | true => rw [submit_dup_player st p w o hp hm hd, submit_dup_player st p w o2 hp hm hd]
    | false =>
    cases hw : st.submissions.any (fun s => s.word == cleanWordOf w) with
    | true => rw [submit_dup_word st p w o hp hm hd hw, submit_dup_word st p w o2 hp hm hd hw]
    | false =>
    rw [submit_checked st p w o hp hm hd hw, submit_checked st p w o2 hp hm hd hw,
      hnone o, hnone o2]
  · intro hp hm hd hw
    rw [submit_checked st p w o hp hm hd hw, hnone o]
    rfl

/-- Witness for claim C10: after a NewRound from the fresh session the
secret is null and the submissions list is empty; a submission is accepted
even when the oracle outcome (had it been consulted) reports a match. -/
theorem oracle_skip_spec_witness :
    checkSimilarity (cleanWordOf "lion")
      (((reset createFreshState).1.submissions).map (fun s => s.word))
      (reset createFreshState).1.groqApiKey
      (OracleOutcome.reply ⟨true, some "lion", "match"⟩) = none ∧
    submitWord (reset createFreshState).1 "Ann" "lion"
        (OracleOutcome.reply ⟨true, some "lion", "match"⟩) =
      submitWord (reset createFreshState).1 "Ann" "lion" OracleOutcome.unreachable ∧
    ((reset createFreshState).1.phase = Phase.submission →
      ¬(jsTrim "Ann" = "" ∨ cleanWordOf "lion" = "") →
      ((reset createFreshState).1.submissions).any
        (fun s => jsToLower s.player == jsToLower (jsTrim "Ann")) = false →
      ((reset createFreshState).1.submissions).any
        (fun s => s.word == cleanWordOf "lion") = false →
      submitWord (reset createFreshState).1 "Ann" "lion"
          (OracleOutcome.reply ⟨true, some "lion", "match"⟩) =
        ({ (reset createFreshState).1 with submissions :=
            (reset createFreshState).1.submissions ++ [⟨jsTrim "Ann", cleanWordOf "lion"⟩] },
         Except.ok ((reset createFreshState).1.submissions.length + 1))) :=
  oracle_skip_spec (reset createFreshState).1 "Ann" "lion"
    (OracleOutcome.reply ⟨true, some "lion", "match"⟩) OracleOutcome.unreachable
    (Or.inl rfl)

end Empire
